import Mathlib

/-!
Shallow embedding of the CSO-VMware ENet session layer.

The embedded code lives in three translation units:
  - core.cpp    : the host session state machine over four global variables
                  (server flag, initialized flag, host pointer, conn pointer);
  - net.cpp     : the endpoint descriptors (client, server) plus the two
                  global flags setup and connecting;
  - listener.cpp: the single-slot listener registry.

Pointers returned by the ENet binding (enet_host_create, enet_host_connect)
and the success of enet_initialize are external inputs; they are passed as
explicit oracle parameters.  Handles are modelled as Nat, a null pointer as
none.  A C++ throw is modelled as an error value in the result; the globals
keep whatever values they had at the throw point, exactly as in the source.
Every call into the ENet binding is recorded in an action trace, so that
claims about which binding calls happen (and in which order) are statements
about the trace.
-/

namespace cat

/-- Kind of an ENetEvent delivered by enet_host_service. -/
inductive EventKind where
  | connect
  | disconnect
  | receive
deriving DecidableEq

/-- An event as filled in by enet_host_service: kind, peer pointer, and the
packet pointer (none for the events that carry no packet). -/
structure EnetEvent where
  kind : EventKind
  peer : Nat
  packet : Option Nat
deriving DecidableEq

/-- A call made into the ENet binding, or a dispatch of an event to an
installed listener callback.  The source never emits a dispatch action; the
constructors exist so that absence of dispatch is expressible. -/
inductive Act where
  | enetInitialize
  | enetHostCreateServer (addr : String) (prt peers channels : Nat)
  | enetHostCreateClient (channels : Nat)
  | enetHostConnect (addr : String) (prt channels : Nat)
  | enetPacketCreate
  | enetPeerSend (peer : Option Nat) (channel : Nat)
  | enetHostFlush
  | enetHostService (timeoutMs : Nat)
  | enetPacketDestroy (packet : Option Nat)
  | enetHostDestroy
  | enetDeinitialize
  | dispatchConnect (peer : Nat)
  | dispatchDisconnect (peer : Nat)
  | dispatchReceive (peer : Nat) (packet : Option Nat)
deriving DecidableEq

/-- Whether an action is a dispatch to a listener callback. -/
def Act.isDispatch : Act → Bool
  | .dispatchConnect _ => true
  | .dispatchDisconnect _ => true
  | .dispatchReceive _ _ => true
  | _ => false

/-- The errors the core can raise.  The first six model the
std::runtime_error throws of core.cpp, message by message; the last four
model the assert statements in the two send functions. -/
inductive CoreError where
  | enetInitFailed
  | notInitialized
  | hostAlreadyExists
  | hostCreationFailed
  | clientHostMissing
  | connectRequestFailed
  | assertHostMissing
  | assertNotServer
  | assertNotConnected
  | assertNotInitialized
deriving DecidableEq

/-- The four globals of core.cpp, in source order: server, initialized,
host, conn. -/
structure CoreState where
  server : Bool
  initialized : Bool
  host : Option Nat
  conn : Option Nat
deriving DecidableEq

/-- The state the globals hold at program start. -/
def CoreState.start : CoreState := ⟨false, false, none, none⟩

/-- Result of running one core operation: the globals afterwards, the
binding calls made, and the exception thrown if any. -/
structure CoreStep where
  state : CoreState
  acts : List Act
  err : Option CoreError
deriving DecidableEq

/-- Core_enet_init: calls enet_initialize, throws on nonzero result,
otherwise sets initialized.  There is no check of the initialized flag. -/
def Core_enet_init (initOk : Bool) (s : CoreState) : CoreStep :=
  if initOk then ⟨{ s with initialized := true }, [Act.enetInitialize], none⟩
  else ⟨s, [Act.enetInitialize], some CoreError.enetInitFailed⟩

/-- Core_enet_server_create: requires initialized and no existing host, then
calls enet_host_create with the bound address, maxClients peers and the
given channel count; assigns the result to host and throws if it is null,
otherwise sets the server flag. -/
def Core_enet_server_create (newHost : Option Nat) (addr : String)
    (prt channels maxClients : Nat) (s : CoreState) : CoreStep :=
  if !s.initialized then ⟨s, [], some CoreError.notInitialized⟩
  else if s.host.isSome then ⟨s, [], some CoreError.hostAlreadyExists⟩
  else
    match newHost with
    | none => ⟨{ s with host := none },
        [Act.enetHostCreateServer addr prt maxClients channels],
        some CoreError.hostCreationFailed⟩
    | some h => ⟨{ s with host := some h, server := true },
        [Act.enetHostCreateServer addr prt maxClients channels], none⟩

/-- Core_enet_client_create: requires initialized and no existing host, then
calls enet_host_create with a null address, one peer and the given channel
count; assigns the result to host and throws if it is null, otherwise
clears the server flag. -/
def Core_enet_client_create (newHost : Option Nat) (channels : Nat)
    (s : CoreState) : CoreStep :=
  if !s.initialized then ⟨s, [], some CoreError.notInitialized⟩
  else if s.host.isSome then ⟨s, [], some CoreError.hostAlreadyExists⟩
  else
    match newHost with
    | none => ⟨{ s with host := none },
        [Act.enetHostCreateClient channels], some CoreError.hostCreationFailed⟩
    | some h => ⟨{ s with host := some h, server := false },
        [Act.enetHostCreateClient channels], none⟩

/-- Core_enet_client_connect: requires initialized and an existing host
(there is no check that the host is a client host), then calls
enet_host_connect, assigns the result to conn and throws if it is null. -/
def Core_enet_client_connect (newPeer : Option Nat) (addr : String)
    (prt channels : Nat) (s : CoreState) : CoreStep :=
  if !s.initialized then ⟨s, [], some CoreError.notInitialized⟩
  else if s.host.isNone then ⟨s, [], some CoreError.clientHostMissing⟩
  else
    match newPeer with
    | none => ⟨{ s with conn := none },
        [Act.enetHostConnect addr prt channels],
        some CoreError.connectRequestFailed⟩
    | some p => ⟨{ s with conn := some p },
        [Act.enetHostConnect addr prt channels], none⟩

/-- Core_enet_server_send: asserts host, server flag and initialized in that
order, then creates a packet, sends it to the given peer and flushes. -/
def Core_enet_server_send (peer : Nat) (channel : Nat) (s : CoreState) :
    CoreStep :=
  if s.host.isNone then ⟨s, [], some CoreError.assertHostMissing⟩
  else if !s.server then ⟨s, [], some CoreError.assertNotServer⟩
  else if !s.initialized then ⟨s, [], some CoreError.assertNotInitialized⟩
  else ⟨s, [Act.enetPacketCreate, Act.enetPeerSend (some peer) channel,
      Act.enetHostFlush], none⟩

/-- Core_enet_client_send: asserts host, conn and initialized in that order,
then creates a packet, sends it over conn and flushes. -/
def Core_enet_client_send (channel : Nat) (s : CoreState) : CoreStep :=
  if s.host.isNone then ⟨s, [], some CoreError.assertHostMissing⟩
  else if s.conn.isNone then ⟨s, [], some CoreError.assertNotConnected⟩
  else if !s.initialized then ⟨s, [], some CoreError.assertNotInitialized⟩
  else ⟨s, [Act.enetPacketCreate, Act.enetPeerSend s.conn channel,
      Act.enetHostFlush], none⟩

/-- The binding calls of the poll loop: one enet_host_service call per
pending event, each followed immediately by enet_packet_destroy on the
packet field of that event, and one final enet_host_service call that
reports no further event and ends the loop. -/
def pollActs (timeoutMs : Nat) : List EnetEvent → List Act
  | [] => [Act.enetHostService timeoutMs]
  | e :: es => Act.enetHostService timeoutMs :: Act.enetPacketDestroy e.packet
      :: pollActs timeoutMs es

/-- Core_enet_pollevents: drains enet_host_service in a loop, destroying the
packet of every event.  No global changes, and nothing in the loop body
consults the listener registry or invokes a callback. -/
def Core_enet_pollevents (events : List EnetEvent) (timeoutMs : Nat)
    (s : CoreState) : CoreStep :=
  ⟨s, pollActs timeoutMs events, none⟩

/-- Core_enet_deinit: destroys the host if present, deinitializes the
binding if initialized, then clears conn and the server flag.  It never
throws. -/
def Core_enet_deinit (s : CoreState) : CoreStep :=
  ⟨CoreState.start,
   (if s.host.isSome then [Act.enetHostDestroy] else []) ++
     (if s.initialized then [Act.enetDeinitialize] else []), none⟩

/-- InstallListener: overwrites the single global listener slot with the
given (asserted non-null) handler pointer. -/
def InstallListener (protocol : Nat) (_listener : Option Nat) : Option Nat :=
  some protocol

/-- LocateListener: returns the currently installed handler pointer. -/
def LocateListener (listener : Option Nat) : Option Nat :=
  listener

/-- Outcomes the ENet binding supplies for the steps of one connect
sequence: whether enet_initialize succeeds, and the pointers returned by
enet_host_create and enet_host_connect. -/
structure Oracle where
  initOk : Bool
  newHost : Option Nat
  newPeer : Option Nat

/-- The client endpoint descriptor of client.h: target server address,
port, and identity string.  Immutable. -/
structure client where
  server : String
  port : Nat
  name : String

/-- The server endpoint descriptor of server.h: bind address and port.
Immutable. -/
structure server where
  host : String
  port : Nat

/-- The globals of net.cpp (setup, connecting) together with the core
globals they guard. -/
structure NetState where
  core : CoreState
  setup : Bool
  connecting : Bool
deriving DecidableEq

/-- The net-layer state at program start. -/
def NetState.start : NetState := ⟨CoreState.start, false, false⟩

/-- Result of a net-layer operation. -/
structure NetStep where
  state : NetState
  acts : List Act
  err : Option CoreError
deriving DecidableEq

/-- is_setup of net.cpp. -/
def is_setup (s : NetState) : Bool := s.setup

/-- is_connecting of net.cpp. -/
def is_connecting (s : NetState) : Bool := s.connecting

/-- client::connect of net.cpp: Core_enet_init, then
Core_enet_client_create(1), then Core_enet_client_connect(server, port, 0),
then set setup and connecting.  An exception from any step propagates out,
skipping the remaining statements. -/
def client.connect (o : Oracle) (c : client) (s : NetState) : NetStep :=
  let r1 := Core_enet_init o.initOk s.core
  match r1.err with
  | some e => ⟨{ s with core := r1.state }, r1.acts, some e⟩
  | none =>
    let r2 := Core_enet_client_create o.newHost 1 r1.state
    match r2.err with
    | some e => ⟨{ s with core := r2.state }, r1.acts ++ r2.acts, some e⟩
    | none =>
      let r3 := Core_enet_client_connect o.newPeer c.server c.port 0 r2.state
      match r3.err with
      | some e => ⟨{ s with core := r3.state },
          r1.acts ++ r2.acts ++ r3.acts, some e⟩
      | none => ⟨⟨r3.state, true, true⟩, r1.acts ++ r2.acts ++ r3.acts, none⟩

/-- client::poll of net.cpp: Core_enet_pollevents with a 600 ms timeout. -/
def client.poll (events : List EnetEvent) (s : NetState) : NetStep :=
  let r := Core_enet_pollevents events 600 s.core
  ⟨{ s with core := r.state }, r.acts, r.err⟩

/-- client::send of net.cpp: serializes the packet (external) and calls
Core_enet_client_send on channel 0. -/
def client.send (s : NetState) : NetStep :=
  let r := Core_enet_client_send 0 s.core
  ⟨{ s with core := r.state }, r.acts, r.err⟩

/-- client::shutdown of net.cpp: Core_enet_deinit, then clear setup
and connecting.  Declared noexcept and never fails. -/
def client.shutdown (s : NetState) : NetStep :=
  let r := Core_enet_deinit s.core
  ⟨⟨r.state, false, false⟩, r.acts, none⟩

/-- server::connect of net.cpp: Core_enet_init, then
Core_enet_server_create(host, port, 1, 32), then set setup and
connecting. -/
def server.connect (o : Oracle) (sv : server) (s : NetState) : NetStep :=
  let r1 := Core_enet_init o.initOk s.core
  match r1.err with
  | some e => ⟨{ s with core := r1.state }, r1.acts, some e⟩
  | none =>
    let r2 := Core_enet_server_create o.newHost sv.host sv.port 1 32 r1.state
    match r2.err with
    | some e => ⟨{ s with core := r2.state }, r1.acts ++ r2.acts, some e⟩
    | none => ⟨⟨r2.state, true, true⟩, r1.acts ++ r2.acts, none⟩

/-- server::poll of net.cpp: Core_enet_pollevents with a 600 ms timeout. -/
def server.poll (events : List EnetEvent) (s : NetState) : NetStep :=
  let r := Core_enet_pollevents events 600 s.core
  ⟨{ s with core := r.state }, r.acts, r.err⟩

/-- server::send of net.cpp: serializes the packet (external) and calls
Core_enet_server_send on channel 0 for the given peer. -/
def server.send (peer : Nat) (s : NetState) : NetStep :=
  let r := Core_enet_server_send peer 0 s.core
  ⟨{ s with core := r.state }, r.acts, r.err⟩

/-- server::shutdown of net.cpp: Core_enet_deinit, then clear setup
and connecting.  Declared noexcept and never fails. -/
def server.shutdown (s : NetState) : NetStep :=
  let r := Core_enet_deinit s.core
  ⟨⟨r.state, false, false⟩, r.acts, none⟩

/-- One round of the sequence initialize(); createServer(...); shutdown();
on the core globals.  An exception from a step skips the remaining calls of
the round, as it would in C++. -/
def serverCycle (o : Oracle) (addr : String) (prt channels maxClients : Nat)
    (s : CoreState) : CoreState :=
  let r1 := Core_enet_init o.initOk s
  match r1.err with
  | some _ => r1.state
  | none =>
    let r2 := Core_enet_server_create o.newHost addr prt channels maxClients
        r1.state
    match r2.err with
    | some _ => r2.state
    | none => (Core_enet_deinit r2.state).state

/-- Iterates a state transformer n times. -/
def iterCycle (f : CoreState → CoreState) : Nat → CoreState → CoreState
  | 0, s => s
  | n + 1, s => iterCycle f n (f s)

/-- The operations a process in the server role performs between connect
and shutdown: polling (with the events the binding yields) and sending to a
peer. -/
inductive ServerOp where
  | pollOp (events : List EnetEvent)
  | sendOp (peer : Nat)

/-- Applies one server-role operation to the net-layer state. -/
def applyServerOp (op : ServerOp) (s : NetState) : NetState :=
  match op with
  | .pollOp events => (server.poll events s).state
  | .sendOp peer => (server.send peer s).state

/-- Runs a list of server-role operations in order. -/
def runServerOps : List ServerOp → NetState → NetState
  | [], s => s
  | op :: ops, s => runServerOps ops (applyServerOp op s)

/-- Claim C1: with the session initialized, a server host up, and a
listener installed and locatable, a poll that receives one event from the
binding destroys the underlying packet payload immediately and performs no
dispatch at all: the action trace is exactly service, packet-destroy,
service, and contains no dispatch action, so no listener callback runs
before (or after) the payload is destroyed. -/
theorem C1_poll_destroys_without_dispatch :
    LocateListener (InstallListener 5 none) = some 5 ∧
    (Core_enet_pollevents [⟨EventKind.receive, 2, some 7⟩] 600
        ⟨true, true, some 1, none⟩).acts =
      [Act.enetHostService 600, Act.enetPacketDestroy (some 7),
        Act.enetHostService 600] ∧
    (Core_enet_pollevents [⟨EventKind.receive, 2, some 7⟩] 600
        ⟨true, true, some 1, none⟩).acts.all (fun a => !a.isDispatch) = true :=
  ⟨rfl, rfl, rfl⟩

/-- Claim C2 counterexample: the reachable state obtained by initialize,
createServer (host pointer 1), then clientConnect (peer pointer 2) shows
clientConnect succeeding with no error while the server flag is set, and
leaves the active-peer handle non-null in the server role — contradicting
both parts of the claim. -/
theorem C2_counterexample :
    (Core_enet_client_connect (some 2) "remote" 2330 0
        (Core_enet_server_create (some 1) "localhost" 2330 1 32
          (Core_enet_init true CoreState.start).state).state).err = none ∧
    (Core_enet_client_connect (some 2) "remote" 2330 0
        (Core_enet_server_create (some 1) "localhost" 2330 1 32
          (Core_enet_init true CoreState.start).state).state).state.conn
      = some 2 ∧
    (Core_enet_client_connect (some 2) "remote" 2330 0
        (Core_enet_server_create (some 1) "localhost" 2330 1 32
          (Core_enet_init true CoreState.start).state).state).state.server
      = true := by
  refine ⟨rfl, rfl, rfl⟩

/-- Claim C2 amended: clientConnect requires only that the library is
initialized and that some host handle exists; it performs no role check, so
when the binding grants a peer it succeeds and stores the peer handle even
while the process holds a server-role host, and it never changes the role
flag. -/
theorem C2_connect_has_no_role_check (p prt channels : Nat) (addr : String)
    (s : CoreState) :
    ((Core_enet_client_connect (some p) addr prt channels s).err = none ↔
      (s.initialized = true ∧ s.host.isSome = true)) ∧
    (Core_enet_client_connect (some p) addr prt channels s).state.conn =
      (if s.initialized && s.host.isSome then some p else s.conn) ∧
    (Core_enet_client_connect (some p) addr prt channels s).state.server =
      s.server := by
  obtain ⟨sv, ini, h, c⟩ := s
  cases ini <;> cases h <;>
    simp [Core_enet_client_connect, Option.isSome, Option.isNone]

/-- Claim C2 amended, witness. -/
theorem C2_connect_has_no_role_check_witness :
    (Core_enet_client_connect (some 2) "remote" 2330 0
        ⟨true, true, some 1, none⟩).err = none ∧
    (Core_enet_client_connect (some 2) "remote" 2330 0
        ⟨true, true, some 1, none⟩).state.conn = some 2 :=
  ⟨(C2_connect_has_no_role_check 2 2330 0 "remote"
      ⟨true, true, some 1, none⟩).1.mpr ⟨rfl, rfl⟩,
   (C2_connect_has_no_role_check 2 2330 0 "remote"
      ⟨true, true, some 1, none⟩).2.1⟩

/-- Claim C4 counterexample: after one successful initialize, a second
initialize (with the binding succeeding) returns no error — it does not
fail with an already-initialized error — and its trace shows transport
initialization being run again. -/
theorem C4_counterexample :
    (Core_enet_init true
        (Core_enet_init true CoreState.start).state).err = none ∧
    (Core_enet_init true
        (Core_enet_init true CoreState.start).state).acts =
      [Act.enetInitialize] := by
  refine ⟨rfl, rfl⟩

/-- Claim C4 amended: calling initialize a second time without an
intervening shutdown silently succeeds: there is no already-initialized
check, the call re-runs transport initialization (the trace contains the
binding call again), and the state is left initialized. -/
theorem C4_reinitialize_silently_succeeds (s : CoreState)
    (h : s.initialized = true) :
    (Core_enet_init true s).err = none ∧
    (Core_enet_init true s).acts = [Act.enetInitialize] ∧
    (Core_enet_init true s).state = s := by
  obtain ⟨sv, ini, hh, c⟩ := s
  cases h
  exact ⟨rfl, rfl, rfl⟩

/-- Claim C3 counterexample: a client connect in which the binding creates
the host (pointer 1) but refuses the connect request fails with the
connect-request error and leaves the host handle set — no reset happens —
and a retry of connect on the same descriptor, with the binding now willing
to grant everything, fails with the host-already-exists error. -/
theorem C3_counterexample :
    (client.connect ⟨true, some 1, none⟩ ⟨"localhost", 2330, "moubiecat"⟩
        NetState.start).err = some CoreError.connectRequestFailed ∧
    (client.connect ⟨true, some 1, none⟩ ⟨"localhost", 2330, "moubiecat"⟩
        NetState.start).state.core.host = some 1 ∧
    (client.connect ⟨true, some 9, some 3⟩ ⟨"localhost", 2330, "moubiecat"⟩
        (client.connect ⟨true, some 1, none⟩ ⟨"localhost", 2330, "moubiecat"⟩
          NetState.start).state).err = some CoreError.hostAlreadyExists := by
  refine ⟨rfl, rfl, rfl⟩

/-- Claim C3 amended: a failed client connect performs no session-state
reset.  When the failure happens at the connect-request step, the host
handle created by the attempt survives and every retry (with the binding
initialization succeeding) fails with the host-already-exists error; only
when the failure happens before a host handle is created (here: at host
creation) does no handle survive, and a retry can then succeed. -/
theorem C3_no_reset_on_failed_connect (c : client) (h h2 p2 : Nat)
    (nh np : Option Nat) :
    ((client.connect ⟨true, some h, none⟩ c NetState.start).err =
        some CoreError.connectRequestFailed ∧
      (client.connect ⟨true, some h, none⟩ c NetState.start).state.core.host =
        some h ∧
      (client.connect ⟨true, nh, np⟩ c
          (client.connect ⟨true, some h, none⟩ c NetState.start).state).err =
        some CoreError.hostAlreadyExists) ∧
    ((client.connect ⟨true, none, some p2⟩ c NetState.start).err =
        some CoreError.hostCreationFailed ∧
      (client.connect ⟨true, none, some p2⟩ c NetState.start).state.core.host =
        none ∧
      (client.connect ⟨true, some h2, some p2⟩ c
          (client.connect ⟨true, none, some p2⟩ c NetState.start).state).err =
        none) := by
  refine ⟨⟨rfl, rfl, rfl⟩, ⟨rfl, rfl, rfl⟩⟩

/-- Claim C5 counterexample: after initialize, createClient and a
successful clientConnect request — with no poll ever run, so no Connect
event has been observed — a client send passes every assertion and
proceeds with no error, contradicting the claim that it fails with a
not-connected error before a Connect event. -/
theorem C5_counterexample :
    (Core_enet_client_send 0
        (Core_enet_client_connect (some 2) "localhost" 2330 0
          (Core_enet_client_create (some 1) 1
            (Core_enet_init true CoreState.start).state).state).state).err
      = none ∧
    (Core_enet_client_send 0
        (Core_enet_client_connect (some 2) "localhost" 2330 0
          (Core_enet_client_create (some 1) 1
            (Core_enet_init true CoreState.start).state).state).state).acts
      = [Act.enetPacketCreate, Act.enetPeerSend (some 2) 0,
          Act.enetHostFlush] := by
  refine ⟨rfl, rfl⟩

/-- Claim C5 amended: a client send succeeds exactly when a host exists, a
peer handle has been stored by a connect request, and the library is
initialized — it does not consult whether a Connect event was ever
observed, and the failure when the peer handle is absent is the
not-connected assertion.  The send never changes the session state. -/
theorem C5_send_checks_peer_handle_not_event (channel : Nat) (s : CoreState) :
    (Core_enet_client_send channel s).state = s ∧
    ((Core_enet_client_send channel s).err = none ↔
      (s.host.isSome = true ∧ s.conn.isSome = true ∧ s.initialized = true)) ∧
    (s.host.isSome = true → s.conn = none →
      (Core_enet_client_send channel s).err =
        some CoreError.assertNotConnected) := by
  obtain ⟨sv, ini, h, c⟩ := s
  cases ini <;> cases h <;> cases c <;>
    simp [Core_enet_client_send, Option.isSome, Option.isNone]

/-- Claim C5 amended, witness. -/
theorem C5_send_checks_peer_handle_not_event_witness :
    (Core_enet_client_send 0 ⟨false, true, some 1, none⟩).err =
      some CoreError.assertNotConnected :=
  (C5_send_checks_peer_handle_not_event 0
      ⟨false, true, some 1, none⟩).2.2 rfl rfl

/-- Claim C6: createServer is atomic on error.  A second create while a
host handle exists (and the library is initialized) fails with the
host-already-exists error and leaves the state — in particular the
existing host handle — untouched; and a host-creation failure from the
binding fails with the host-creation error and leaves the state unchanged:
no host handle is retained and the role flag is not set. -/
theorem C6_server_create_atomic (nh : Option Nat) (addr : String)
    (prt channels maxClients h : Nat) (s : CoreState) :
    (s.initialized = true → s.host = some h →
      (Core_enet_server_create nh addr prt channels maxClients s).err =
          some CoreError.hostAlreadyExists ∧
        (Core_enet_server_create nh addr prt channels maxClients s).state = s) ∧
    (s.initialized = true → s.host = none →
      (Core_enet_server_create none addr prt channels maxClients s).err =
          some CoreError.hostCreationFailed ∧
        (Core_enet_server_create none addr prt channels maxClients s).state =
          s) := by
  obtain ⟨sv, ini, hh, c⟩ := s
  constructor
  · rintro rfl rfl
    exact ⟨rfl, rfl⟩
  · rintro rfl rfl
    exact ⟨rfl, rfl⟩

/-- Claim C6, witness. -/
theorem C6_server_create_atomic_witness :
    (Core_enet_server_create (some 9) "localhost" 2330 1 32
        ⟨true, true, some 1, none⟩).err = some CoreError.hostAlreadyExists ∧
    (Core_enet_server_create none "localhost" 2330 1 32
        ⟨false, true, none, none⟩).state = ⟨false, true, none, none⟩ :=
  ⟨((C6_server_create_atomic (some 9) "localhost" 2330 1 32 1
      ⟨true, true, some 1, none⟩).1 rfl rfl).1,
   ((C6_server_create_atomic none "localhost" 2330 1 32 0
      ⟨false, true, none, none⟩).2 rfl rfl).2⟩

/-- Claim C4 amended, witness. -/
theorem C4_reinitialize_silently_succeeds_witness :
    (Core_enet_init true ⟨false, true, none, none⟩).err = none ∧
    (Core_enet_init true ⟨false, true, none, none⟩).acts =
      [Act.enetInitialize] ∧
    (Core_enet_init true ⟨false, true, none, none⟩).state =
      ⟨false, true, none, none⟩ :=
  C4_reinitialize_silently_succeeds ⟨false, true, none, none⟩ rfl

/-- Claim C7: shutdown never fails in any state and always leaves the
start state; when called while already uninitialized (no host handle, not
initialized) it makes no binding call at all (no host destroy, no transport
deinitialize); a repeated call right after a shutdown likewise makes no
binding call, so no double destroy or double deinitialize occurs; and the
net-layer client shutdown never fails either. -/
theorem C7_shutdown_idempotent_never_fails (s : CoreState) (ns : NetState) :
    (Core_enet_deinit s).err = none ∧
    (Core_enet_deinit s).state = CoreState.start ∧
    (s.host = none → s.initialized = false →
      (Core_enet_deinit s).acts = []) ∧
    (Core_enet_deinit (Core_enet_deinit s).state).acts = [] ∧
    (client.shutdown ns).err = none := by
  obtain ⟨sv, ini, h, c⟩ := s
  refine ⟨rfl, rfl, ?_, rfl, rfl⟩
  rintro rfl rfl
  rfl

/-- Claim C7, witness. -/
theorem C7_shutdown_idempotent_never_fails_witness :
    (Core_enet_deinit ⟨false, false, none, some 4⟩).err = none ∧
    (Core_enet_deinit ⟨false, false, none, some 4⟩).acts = [] :=
  ⟨(C7_shutdown_idempotent_never_fails ⟨false, false, none, some 4⟩
      NetState.start).1,
   (C7_shutdown_idempotent_never_fails ⟨false, false, none, some 4⟩
      NetState.start).2.2.1 rfl rfl⟩

/-- Claim C8: for every N, running the round initialize; createServer;
shutdown N times from the start state (with the binding granting the
initialization and the host pointer) ends in exactly the start state: not
initialized, no host handle, no active peer, role flag cleared. -/
theorem C8_init_create_shutdown_cycle_resets (n h prt channels maxClients : Nat)
    (np : Option Nat) (addr : String) :
    iterCycle (serverCycle ⟨true, some h, np⟩ addr prt channels maxClients) n
      CoreState.start = CoreState.start := by
  induction n with
  | zero => rfl
  | succ k ih =>
    have hstep : serverCycle ⟨true, some h, np⟩ addr prt channels maxClients
        CoreState.start = CoreState.start := rfl
    simp only [iterCycle, hstep]
    exact ih

/-- Claim C9: from any state with no host handle, a client connect in
which every binding step succeeds performs exactly the binding sequence
transport-initialize, create a client host with 1 channel, connect to the
descriptor address and port with channel count 0; and a server connect
performs exactly transport-initialize, create a server host bound to the
descriptor address and port with 32 max clients and 1 channel. -/
theorem C9_connect_call_sequences (c : client) (sv : server) (h p : Nat)
    (s : NetState) :
    (s.core.host = none →
      (client.connect ⟨true, some h, some p⟩ c s).acts =
        [Act.enetInitialize, Act.enetHostCreateClient 1,
          Act.enetHostConnect c.server c.port 0] ∧
      (client.connect ⟨true, some h, some p⟩ c s).err = none) ∧
    (s.core.host = none →
      (server.connect ⟨true, some h, some p⟩ sv s).acts =
        [Act.enetInitialize, Act.enetHostCreateServer sv.host sv.port 32 1] ∧
      (server.connect ⟨true, some h, some p⟩ sv s).err = none) := by
  obtain ⟨⟨svf, ini, hh, cc⟩, stp, con⟩ := s
  constructor
  · rintro rfl
    exact ⟨rfl, rfl⟩
  · rintro rfl
    exact ⟨rfl, rfl⟩

/-- Claim C9, witness. -/
theorem C9_connect_call_sequences_witness :
    (client.connect ⟨true, some 1, some 2⟩ ⟨"localhost", 2330, "moubiecat"⟩
        NetState.start).acts =
      [Act.enetInitialize, Act.enetHostCreateClient 1,
        Act.enetHostConnect "localhost" 2330 0] ∧
    (server.connect ⟨true, some 1, some 2⟩ ⟨"localhost", 2330⟩
        NetState.start).acts =
      [Act.enetInitialize, Act.enetHostCreateServer "localhost" 2330 32 1] :=
  ⟨((C9_connect_call_sequences ⟨"localhost", 2330, "moubiecat"⟩
      ⟨"localhost", 2330⟩ 1 2 NetState.start).1 rfl).1,
   ((C9_connect_call_sequences ⟨"localhost", 2330, "moubiecat"⟩
      ⟨"localhost", 2330⟩ 1 2 NetState.start).2 rfl).1⟩

/-- The state part of a server send is always the input state: the send
only makes binding calls (or trips an assertion), it changes no global. -/
theorem Core_enet_server_send_state_eq (peer channel : Nat) (s : CoreState) :
    (Core_enet_server_send peer channel s).state = s := by
  unfold Core_enet_server_send
  split_ifs <;> rfl

/-- Server-role poll and send operations change no net-layer global. -/
theorem applyServerOp_eq (op : ServerOp) (s : NetState) :
    applyServerOp op s = s := by
  cases op with
  | pollOp events => rfl
  | sendOp peer =>
    show ({ s with core := (Core_enet_server_send peer 0 s.core).state }
        : NetState) = s
    rw [Core_enet_server_send_state_eq]

/-- Running any list of server-role operations changes no net-layer
global. -/
theorem runServerOps_eq (ops : List ServerOp) (s : NetState) :
    runServerOps ops s = s := by
  induction ops generalizing s with
  | nil => rfl
  | cons op ops ih =>
    show runServerOps ops (applyServerOp op s) = s
    rw [applyServerOp_eq]
    exact ih s

/-- Claim C10: from a state with no host handle and no active peer, a
successful server connect leaves is_connecting true even though the role
flag is set to server and no outbound peer connection exists or was
requested; is_connecting stays true across every sequence of server-role
poll and send operations, and becomes false only at shutdown. -/
theorem C10_server_sets_connecting_flag (sv : server) (h : Nat) (s : NetState)
    (ops : List ServerOp) :
    s.core.host = none → s.core.conn = none →
      (server.connect ⟨true, some h, none⟩ sv s).err = none ∧
      is_connecting (server.connect ⟨true, some h, none⟩ sv s).state = true ∧
      (server.connect ⟨true, some h, none⟩ sv s).state.core.server = true ∧
      (server.connect ⟨true, some h, none⟩ sv s).state.core.conn = none ∧
      is_connecting (runServerOps ops
        (server.connect ⟨true, some h, none⟩ sv s).state) = true ∧
      is_connecting (server.shutdown (runServerOps ops
        (server.connect ⟨true, some h, none⟩ sv s).state)).state = false := by
  obtain ⟨⟨svf, ini, hh, cc⟩, stp, con⟩ := s
  rintro rfl rfl
  refine ⟨rfl, rfl, rfl, rfl, ?_, ?_⟩
  · rw [runServerOps_eq]
    rfl
  · rw [runServerOps_eq]
    rfl

/-- Claim C10, witness. -/
theorem C10_server_sets_connecting_flag_witness :
    is_connecting (server.connect ⟨true, some 1, none⟩ ⟨"localhost", 2330⟩
      NetState.start).state = true ∧
    is_connecting (runServerOps
      [ServerOp.pollOp [⟨EventKind.connect, 3, none⟩], ServerOp.sendOp 3]
      (server.connect ⟨true, some 1, none⟩ ⟨"localhost", 2330⟩
        NetState.start).state) = true :=
  ⟨(C10_server_sets_connecting_flag ⟨"localhost", 2330⟩ 1 NetState.start
      [ServerOp.pollOp [⟨EventKind.connect, 3, none⟩], ServerOp.sendOp 3]
      rfl rfl).2.1,
   (C10_server_sets_connecting_flag ⟨"localhost", 2330⟩ 1 NetState.start
      [ServerOp.pollOp [⟨EventKind.connect, 3, none⟩], ServerOp.sendOp 3]
      rfl rfl).2.2.2.2.1⟩

end cat
